import Mathlib

/-! Verification of the questionnaire extraction and generation pipeline of the
Thesiss1 test-bank application. The definitions below are shallow embeddings of
the Python sources under `questionnaires/`: `extractors.py`,
`services/gemini_extraction_service.py`, `views.py` and `generators.py`.
Python text is modelled as `List Char` (a sequence of code points), Python
dicts with a fixed key set as structures with `Option` fields (a `none` field
models an absent key), and a raised exception as `Except.error` carrying the
message. -/

/-! Models of the Python standard-library string operations the sources use. -/

/-- Model of Python `str.strip()`: drop leading and trailing whitespace. -/
def py_strip (s : List Char) : List Char :=
  ((s.dropWhile Char.isWhitespace).reverse.dropWhile Char.isWhitespace).reverse

/-- Model of Python `str.split('.')`: split at every dot, keeping empty parts
(the result is never the empty list). -/
def py_split_dot : List Char → List (List Char)
  | [] => [[]]
  | c :: rest =>
    let r := py_split_dot rest
    if c = '.' then [] :: r
    else
      match r with
      | [] => [[c]]
      | h :: t => (c :: h) :: t

/-- ASCII lower-casing of one character, as Python `str.lower` acts on the
ASCII file names and extensions the code handles. -/
def py_lower_char (c : Char) : Char :=
  if 'A' ≤ c ∧ c ≤ 'Z' then Char.ofNat (c.toNat + 32) else c

/-- Model of Python `str.lower()`. -/
def py_lower (s : List Char) : List Char := s.map py_lower_char

/-- One step of Python `str.replace(pat, rep)`, with fuel bounding recursion
depth (the initial fuel `s.length` is enough: every step consumes at least one
character of `s`). -/
def py_replace_fuel : Nat → List Char → List Char → List Char → List Char
  | 0, s, _, _ => s
  | _, [], _, _ => []
  | fuel + 1, c :: rest, pat, rep =>
    if pat ≠ [] ∧ pat.isPrefixOf (c :: rest) then
      rep ++ py_replace_fuel fuel ((c :: rest).drop pat.length) pat rep
    else
      c :: py_replace_fuel fuel rest pat rep

/-- Model of Python `str.replace(pat, rep)`: replace every non-overlapping
occurrence, scanning left to right. -/
def py_replace (s pat rep : List Char) : List Char :=
  py_replace_fuel s.length s pat rep

/-! Embedding of `questionnaires/extractors.py` (class `AIQuestionExtractor`). -/

/-- A candidate question dictionary as handled by `extractors.py`: the keys the
code reads, each `none` when absent from the parsed JSON object. -/
structure Question where
  ty : Option String
  question : Option String
  option_a : Option String
  option_b : Option String
  option_c : Option String
  option_d : Option String
  answer : Option String
  explanation : Option String
  difficulty : Option String
  points : Option Int
deriving Repr, DecidableEq

/-- Python truthiness of an optional string value (`question.get(k)`): absent
keys yield `None` (falsy), and an empty string is falsy. -/
def truthyStr : Option String → Bool
  | none => false
  | some s => !s.isEmpty

/-- Python truthiness of an optional integer value: absent is falsy, `0` is
falsy. -/
def truthyInt : Option Int → Bool
  | none => false
  | some n => n != 0

/-- Embedding of `AIQuestionExtractor._validate_question` (extractors.py lines
336-362): returns the verdict together with the (possibly default-filled)
question dictionary, since the Python code mutates its argument in place. -/
def validate_question (q : Question) : Bool × Question :=
  if truthyStr q.ty = false ∨ truthyStr q.question = false then (false, q)
  else if q.ty = some ("multiple_choice") ∧
      (truthyStr q.option_a = false ∨ truthyStr q.option_b = false ∨
       truthyStr q.option_c = false ∨ truthyStr q.option_d = false) then (false, q)
  else
    let q1 := if q.difficulty = some ("easy") ∨ q.difficulty = some ("medium") ∨
        q.difficulty = some ("hard") then q else { q with difficulty := some ("medium") }
    let q2 := if truthyInt q1.points = true then q1 else { q1 with points := some 1 }
    let q3 := if q2.explanation = none then { q2 with explanation := some ("") } else q2
    let q4 := if q3.answer = none then { q3 with answer := some ("") } else q3
    (true, q4)

/-- Embedding of the truncation step of `_extract_with_ai` (extractors.py lines
152-154): content longer than 30000 characters is cut to 30000 characters and a
truncation marker is appended. -/
def truncate_content (content : List Char) : List Char :=
  if content.length > 30000 then
    content.take 30000 ++ ("\n... (content truncated)").toList
  else content

/-- The names of the methods the class `AIQuestionExtractor` defines
(extractors.py: every `def` in the class body). `_parse_ai_response` is not
among them: the response-parsing code at lines 273-334 stands inside
`_build_generation_prompt`, after its `return prompt` at line 272. -/
def aiQuestionExtractorMethods : List String :=
  ["__init__", "process_questionnaire", "_read_file", "_read_txt", "_read_pdf",
   "_read_docx", "_read_xlsx", "_extract_with_ai", "_build_extraction_prompt",
   "_build_generation_prompt", "_validate_question"]

/-- Attribute table for response-parsing methods of `AIQuestionExtractor`:
the association of method names to parsing functions, built from the class's
`def` statements. No `def _parse_ai_response` exists in the class, so the
table is empty and Python attribute lookup of that name raises
`AttributeError`. -/
def parse_ai_response_table : List (String × (List Char → Except String (List Question))) := []

/-- The message of the exception `_extract_with_ai` re-raises when the call
`self._parse_ai_response(response.text)` at line 173 fails with
`AttributeError`. -/
def attributeErrorMsg : String :=
  "AI extraction failed: 'AIQuestionExtractor' object has no attribute '_parse_ai_response'"

/-- Embedding of `AIQuestionExtractor._extract_with_ai` (extractors.py lines
145-178) in the case where the AI call itself succeeds with response text
`responseText`: the content is truncated, a prompt is built for the given mode,
and the code then calls `self._parse_ai_response(response.text)`; any exception
is re-raised as `AI extraction failed: ...`. -/
def extract_with_ai (content : List Char) (type_names : List String) (mode : String)
    (responseText : List Char) : Except String (List Question) :=
  let _truncated := truncate_content content
  let _temperature : Nat := if mode = "generate" then 7 else 1
  match parse_ai_response_table.lookup ("_parse_ai_response") with
  | some f =>
    match f responseText with
    | Except.ok qs => Except.ok qs
    | Except.error e => Except.error ("AI extraction failed: " ++ e)
  | none => Except.error attributeErrorMsg

/-- A persisted `ExtractedQuestion` row (models.py lines 100-131), as created
by the two extraction services. -/
structure StoredQuestion where
  question_type : String
  question_text : String
  option_a : Option String
  option_b : Option String
  option_c : Option String
  option_d : Option String
  correct_answer : String
  explanation : String
  points : Int
  difficulty : String
  is_approved : Bool
deriving Repr, DecidableEq

/-- Embedding of one iteration of the save loop of
`AIQuestionExtractor.process_questionnaire` (extractors.py lines 65-86):
resolve the type name, create the row; any exception (missing `type` or
`question` key, unknown question type) skips the candidate. -/
def extractors_create_question (typeNames : List String) (q : Question) :
    Option StoredQuestion :=
  match q.ty with
  | none => none
  | some t =>
    if t ∈ typeNames then
      match q.question with
      | none => none
      | some qt =>
        some { question_type := t, question_text := qt,
               option_a := q.option_a, option_b := q.option_b,
               option_c := q.option_c, option_d := q.option_d,
               correct_answer := q.answer.getD "",
               explanation := q.explanation.getD "",
               points := q.points.getD 1,
               difficulty := q.difficulty.getD ("medium"),
               is_approved := false }
    else none

/-- Embedding of `AIQuestionExtractor.process_questionnaire` (extractors.py
lines 39-88) given the text read from the file and the AI response text: empty
file content is an error, then `_extract_with_ai` runs, then the save loop. -/
def process_questionnaire (fileContent : List Char) (type_names : List String)
    (mode : String) (responseText : List Char) : Except String (List StoredQuestion) :=
  if (py_strip fileContent).isEmpty then
    Except.error "File is empty or could not be read"
  else
    match extract_with_ai fileContent type_names mode responseText with
    | Except.error e => Except.error e
    | Except.ok qs => Except.ok (qs.filterMap (extractors_create_question type_names))

/-- Embedding of `AIQuestionExtractor._read_file` (extractors.py lines 90-101):
the dispatch on the stored `file_type` tag, before any file is opened. The
result names the format-specific reader the method calls. -/
inductive FileReader
  | txt
  | pdf
  | docx
  | xlsx
deriving Repr, DecidableEq

/-- The dispatch of `_read_file` (extractors.py lines 90-101): a supported tag
selects a reader, anything else raises `ValueError` before any I/O. -/
def read_file (file_type : String) : Except String FileReader :=
  if file_type = "txt" then Except.ok FileReader.txt
  else if file_type = "pdf" then Except.ok FileReader.pdf
  else if file_type = "docx" ∨ file_type = "doc" then Except.ok FileReader.docx
  else if file_type = "xlsx" ∨ file_type = "xls" then Except.ok FileReader.xlsx
  else Except.error ("Unsupported file type: " ++ file_type)

/-! Embedding of `questionnaires/services/gemini_extraction_service.py`
(class `GeminiQuestionnaireExtractor`), the extractor `views.get_extractor`
selects when `GEMINI_API_KEY` is configured. -/

/-- The nested `options` dictionary of the gemini response schema
(`q_data.get('options', {})`). -/
structure OptionsDict where
  a : Option String
  b : Option String
  c : Option String
  d : Option String
deriving Repr, DecidableEq

/-- The empty dictionary default of `q_data.get('options', {})`. -/
def emptyOptionsDict : OptionsDict := ⟨none, none, none, none⟩

/-- A candidate question dictionary of the gemini response schema
(gemini_extraction_service.py lines 258-273): the keys the save loop reads. -/
structure GQData where
  ty : Option String
  question : Option String
  options : Option OptionsDict
  correct_answer : Option String
  explanation : Option String
  difficulty : Option String
  points : Option Int
deriving Repr, DecidableEq

/-- Embedding of the dispatch of
`GeminiQuestionnaireExtractor.extract_text_from_file`
(gemini_extraction_service.py lines 27-41): the extension is the last
dot-separated part of the lower-cased path; a supported extension selects a
reader, anything else raises `ValueError` before any I/O. -/
def extension_of (file_path : List Char) : List Char :=
  (py_split_dot (py_lower file_path)).getLastD []

/-- The reader dispatch of `extract_text_from_file` on a file path. -/
def extract_text_from_file (file_path : List Char) : Except String FileReader :=
  let extension := extension_of file_path
  if extension = ("pdf").toList then Except.ok FileReader.pdf
  else if extension = ("docx").toList ∨ extension = ("doc").toList then Except.ok FileReader.docx
  else if extension = ("xlsx").toList ∨ extension = ("xls").toList then Except.ok FileReader.xlsx
  else if extension = ("txt").toList then Except.ok FileReader.txt
  else Except.error ("Unsupported file format: " ++ String.mk extension)

/-- Embedding of the content slice of the gemini prompt builders
(`_build_extraction_prompt` line 130 and `_build_generation_prompt` line 183):
the prompt embeds `content[:8000]` — the first 8000 characters, with no
truncation marker. -/
def gemini_prompt_slice (content : List Char) : List Char := content.take 8000

/-- Embedding of the response handling of
`GeminiQuestionnaireExtractor.extract_questions_with_ai`
(gemini_extraction_service.py lines 85-111), given the result of the
markdown-fence cleanup and `json.loads`: `Except.error e` when JSON decoding
raised (with message `e`), `Except.ok none` when the decoded object has no
`questions` key, `Except.ok (some qs)` when it holds the list `qs`. A decode
error is re-raised as `Failed to parse AI response as JSON: ...`; a missing or
empty `questions` list raises inside the `try`, and the generic handler wraps
it as `AI extraction failed: ...`. -/
def extract_questions_with_ai (decoded : Except String (Option (List GQData))) :
    Except String (List GQData) :=
  match decoded with
  | Except.error e => Except.error ("Failed to parse AI response as JSON: " ++ e)
  | Except.ok none => Except.error ("AI extraction failed: AI response did not contain any questions")
  | Except.ok (some qs) =>
    if qs.isEmpty then
      Except.error ("AI extraction failed: AI response did not contain any questions")
    else Except.ok qs

/-- Embedding of one iteration of the save loop of
`GeminiQuestionnaireExtractor.process_questionnaire`
(gemini_extraction_service.py lines 258-281): `q_data['type']` and
`q_data['question']` raise `KeyError` when absent (caught, candidate skipped);
an unknown type name raises `QuestionType.DoesNotExist` (caught, candidate
skipped); otherwise the row is created with the defaults of the `.get` calls.
No option-count validation runs on this path. -/
def gemini_create_question (typeNames : List String) (q : GQData) :
    Option StoredQuestion :=
  match q.ty with
  | none => none
  | some t =>
    if t ∈ typeNames then
      match q.question with
      | none => none
      | some qt =>
        some { question_type := t, question_text := qt,
               option_a := (q.options.getD emptyOptionsDict).a,
               option_b := (q.options.getD emptyOptionsDict).b,
               option_c := (q.options.getD emptyOptionsDict).c,
               option_d := (q.options.getD emptyOptionsDict).d,
               correct_answer := q.correct_answer.getD "",
               explanation := q.explanation.getD "",
               points := q.points.getD 1,
               difficulty := q.difficulty.getD ("medium"),
               is_approved := false }
    else none

/-- The save loop of `GeminiQuestionnaireExtractor.process_questionnaire`
over the list `data.get('questions', [])`. -/
def gemini_persist (typeNames : List String) (cands : List GQData) :
    List StoredQuestion :=
  cands.filterMap (gemini_create_question typeNames)

/-- Embedding of `GeminiQuestionnaireExtractor.process_questionnaire`
(gemini_extraction_service.py lines 237-286), given the text read from the
file and the decoded AI response: blank content raises; then
`extract_questions_with_ai` runs; then the save loop; and when the list of
created questions is empty the method itself raises
`No questions were found or created from the file`. -/
def gemini_process_questionnaire (content : List Char)
    (decoded : Except String (Option (List GQData))) (typeNames : List String) :
    Except String (List StoredQuestion) :=
  if (py_strip content).isEmpty then
    Except.error ("No text content could be extracted from the file")
  else
    match extract_questions_with_ai decoded with
    | Except.error e => Except.error e
    | Except.ok qs =>
      let created := gemini_persist typeNames qs
      if created.isEmpty then
        Except.error ("No questions were found or created from the file")
      else Except.ok created

/-- The six question-type names of the fixed `QuestionType` reference table
(models.py lines 73-89). -/
def questionTypeNames : List String :=
  ["multiple_choice", "true_false", "identification", "essay", "fill_blank", "matching"]

/-! Embedding of the extraction flows of `questionnaires/views.py`. -/

/-- The observable database state of the single uploaded document after the
upload flow: whether the `Questionnaire` row and its file still exist, the
`ExtractedQuestion` rows linked to it, the row's extraction status, and
whether an error message was flashed to the user. -/
structure FlowState where
  docExists : Bool
  fileExists : Bool
  rows : List StoredQuestion
  extractionStatus : String
  errorShown : Bool
deriving Repr, DecidableEq

/-- Embedding of the POST branch of `views.upload_questionnaire` (views.py
lines 51-133), given the outcome of `extractor.process_questionnaire`: the
questionnaire is saved with status `processing`; on an exception the file and
the row are deleted (the delete cascades to `ExtractedQuestion` rows) and an
error is flashed; on an empty result the same cleanup runs; otherwise the
status becomes `completed`. -/
def upload_questionnaire_flow (res : Except String (List StoredQuestion)) : FlowState :=
  let st : FlowState := ⟨true, true, [], "processing", false⟩
  match res with
  | Except.error _ =>
    { st with fileExists := false, docExists := false, rows := [], errorShown := true }
  | Except.ok created =>
    let st := { st with rows := created }
    if created.isEmpty then
      { st with fileExists := false, docExists := false, rows := [], errorShown := true }
    else { st with extractionStatus := "completed" }

/-- The observable outcome of one POST to `views.retry_extraction`:
the successive values assigned to `extraction_status` during the request, the
final status, whether the prior `ExtractedQuestion` rows were deleted, whether
extraction was run, the stored rows afterwards, and the flashed error. -/
structure RetryResult where
  statusTrace : List String
  finalStatus : String
  priorDeleted : Bool
  ranExtraction : Bool
  storedAfter : List StoredQuestion
  errorMsg : Option String
deriving Repr, DecidableEq

/-- Embedding of the POST branch of `views.retry_extraction` (views.py lines
393-431), given the document's current status, its prior stored questions, the
selected type ids and the outcome of `process_questionnaire`. The view checks
only the permission and the selected types: it reads the current status
nowhere, deletes all prior extracted questions, assigns `processing`, runs
extraction, and assigns `completed` or `failed`. -/
def retry_extraction (currentStatus : String) (prior : List StoredQuestion)
    (question_type_ids : List Nat) (res : Except String (List StoredQuestion)) :
    RetryResult :=
  if question_type_ids.isEmpty then
    ⟨[], currentStatus, false, false, prior, some ("Please select at least one question type.")⟩
  else
    match res with
    | Except.ok created =>
      ⟨["processing", "completed"], "completed", true, true, created, none⟩
    | Except.error e =>
      ⟨["processing", "failed"], "failed", true, true, [], some ("Extraction failed: " ++ e)⟩

/-! Embedding of `questionnaires/generators.py`. -/

/-- An approved question as the document generator reads it: its type name
(`q.question_type.name`) and its fields used for rendering. -/
structure GenQuestion where
  ty : String
  question_text : String
deriving Repr, DecidableEq

/-- The `section_config` table of `generate_bisu_questionnaire` (generators.py
lines 291-316), in its source order: type key, section label, instruction. -/
def section_config : List (String × String × String) :=
  [("identification", "Identification", "Read carefully and identify what is being asked."),
   ("multiple_choice", "Multiple Choice", "Write the CAPITAL LETTER of the best response."),
   ("true_false", "True or False", "Write TRUE if the statement is correct, otherwise write FALSE."),
   ("essay", "Essay", "Answer the following questions comprehensively."),
   ("fill_blank", "Fill in the Blanks", "Complete the following statements."),
   ("matching", "Matching Type", "Match the items in Column A with those in Column B.")]

/-- A section of the generated document, as the `sections` dict of
`generate_bisu_questionnaire` stores it: the dict key (the type name), the
`PART N` title, the instruction sentence, and the grouped questions. -/
structure GenSection where
  sKey : String
  title : String
  instruction : String
  questions : List GenQuestion
deriving Repr, DecidableEq

/-- Embedding of the section-building loop of `generate_bisu_questionnaire`
(generators.py lines 318-328): walk `section_config` in order; a type with at
least one grouped question gets the next `PART` number, starting from `pn`;
empty types are skipped without consuming a number. Grouping by
`questions_by_type` keeps the input order within each type. -/
def buildSections : List (String × String × String) → List GenQuestion → Nat → List GenSection
  | [], _, _ => []
  | (qtype, label, instr) :: rest, qs, pn =>
    let grp := qs.filter (fun q => q.ty = qtype)
    if grp.isEmpty then buildSections rest qs pn
    else
      ⟨qtype, "PART " ++ toString pn ++ ". " ++ label, instr, grp⟩ ::
        buildSections rest qs (pn + 1)

/-- The ordered sections `generate_bisu_questionnaire` passes to the
generator, with `part_number` starting at 1. -/
def generate_sections (qs : List GenQuestion) : List GenSection :=
  buildSections section_config qs 1

/-- Numbering of the questions of one section, as `_add_questions_by_type`
does with its running `question_number`. -/
def numberFrom : Nat → List GenQuestion → List (Nat × GenQuestion)
  | _, [] => []
  | n, q :: rest => (n, q) :: numberFrom (n + 1) rest

/-- A rendered section of the document body: its header title, instruction,
and the numbered questions. -/
structure RenderedSection where
  header : String
  instruction : String
  body : List (Nat × GenQuestion)
deriving Repr, DecidableEq

/-- Embedding of `BISUQuestionnaireGenerator._add_questions_by_type`
(generators.py lines 181-206): `question_number` starts at the given value and
increments across sections, never resetting; a section with no questions is
skipped. -/
def add_questions_by_type : List GenSection → Nat → List RenderedSection
  | [], _ => []
  | s :: rest, n =>
    if s.questions.isEmpty then add_questions_by_type rest n
    else
      ⟨s.title, s.instruction, numberFrom n s.questions⟩ ::
        add_questions_by_type rest (n + s.questions.length)

/-- The document body `generate_bisu_questionnaire` produces from the selected
questions: the ordered sections, rendered with numbering starting at 1. -/
def render_document (qs : List GenQuestion) : List RenderedSection :=
  add_questions_by_type (generate_sections qs) 1

/-- The expected sequence of `PART` titles when labelling the given section
labels consecutively starting at `n`. -/
def partLabels : Nat → List String → List String
  | _, [] => []
  | n, label :: rest => ("PART " ++ toString n ++ ". " ++ label) :: partLabels (n + 1) rest

/-! Embedding of the PDF step of `generators.py` (`save_pdf` lines 259-273 and
the tail of `generate_bisu_questionnaire` lines 353-372). -/

/-- The environment of one `save_pdf` call: whether `docx2pdf` imports and the
conversion succeeds, the import fails (`docx2pdf` not installed), the
conversion raises, or the initial `save_docx` of the temporary file raises. -/
inductive ConvOutcome
  | ok
  | importErr
  | convErr
  | saveErr
deriving Repr, DecidableEq

/-- The set of files written so far, as a list of paths. -/
structure FileSys where
  written : List (List Char)
deriving Repr, DecidableEq

/-- Embedding of `BISUQuestionnaireGenerator.save_pdf` (generators.py lines
259-273): derive the temporary docx path by `filepath.replace('.pdf',
'_temp.docx')`, save it, then try the conversion; on `ImportError` or any
conversion failure the method prints and returns the docx path instead — it
does not raise; it raises only when the initial `save_docx` itself fails. On
success the temporary docx is removed and the pdf path is returned. -/
def save_pdf (env : ConvOutcome) (fs : FileSys) (filepath : List Char) :
    Except String (List Char) × FileSys :=
  let docx_path := py_replace filepath (".pdf").toList ("_temp.docx").toList
  match env with
  | ConvOutcome.saveErr => (Except.error ("save failed"), fs)
  | ConvOutcome.ok =>
    let fs1 : FileSys := ⟨docx_path :: fs.written⟩
    (Except.ok filepath, ⟨filepath :: fs1.written.filter (fun p => p ≠ docx_path)⟩)
  | ConvOutcome.importErr => (Except.ok docx_path, ⟨docx_path :: fs.written⟩)
  | ConvOutcome.convErr => (Except.ok docx_path, ⟨docx_path :: fs.written⟩)

/-- Embedding of the save tail of `generate_bisu_questionnaire` (generators.py
lines 361-372): save the docx, then call `generator.save_pdf(pdf_path)` inside
`try`, discarding its return value; only when `save_pdf` raises is `pdf_path`
set to `None`. The function returns the `(docx_path, pdf_path)` pair of the
source together with the files actually written. -/
def generate_bisu_tail (env : ConvOutcome) (docx_path pdf_path : List Char) :
    (List Char × Option (List Char)) × FileSys :=
  let fs0 : FileSys := ⟨[docx_path]⟩
  match save_pdf env fs0 pdf_path with
  | (Except.ok _, fs) => ((docx_path, some pdf_path), fs)
  | (Except.error _, fs) => ((docx_path, none), fs)

/-! Concrete inputs used in the closed statements below. -/

/-- An AI response text holding one well-formed question object followed by
one truncated object: the input of the salvage scenario. -/
def c1FailingResponse : List Char :=
  ("[\x7b\"type\": \"essay\", \"question\": \"What is photosynthesis?\"\x7d, \x7b\"type\": \"mu").toList

/-- A candidate whose type name matches no `QuestionType` row. -/
def fooCandidate : GQData :=
  ⟨some ("foo"), some ("What is 1+1?"), none, some ("2"), none, some ("easy"), some 1⟩

/-- A multiple-choice candidate carrying only 3 of the 4 options (no `d`
entry in its `options` dictionary). -/
def mc3Candidate : GQData :=
  ⟨some ("multiple_choice"), some ("Which option is correct?"),
   some ⟨some ("Option 1"), some ("Option 2"), some ("Option 3"), none⟩,
   some ("a"), none, some ("medium"), some 1⟩

/-- A stored essay question row. -/
def storedSample : StoredQuestion :=
  ⟨"essay", "Explain recursion.", none, none, none, none, "", "", 1, "medium", false⟩

/-- An already-validated candidate: difficulty, points, explanation and answer
all set to valid values. -/
def validatedCandidate : Question :=
  ⟨some ("essay"), some ("Explain recursion."), none, none, none, none,
   some (""), some (""), some ("medium"), some 2⟩

/-- A multiple-choice candidate dictionary (flat schema) missing `option_d`. -/
def mc3FlatCandidate : Question :=
  ⟨some ("multiple_choice"), some ("Which option is correct?"),
   some ("Option 1"), some ("Option 2"), some ("Option 3"), none,
   some ("a"), none, some ("medium"), some 1⟩

/-- Two approved questions, essay first, multiple-choice second. -/
def essayMcQuestions : List GenQuestion :=
  [⟨"essay", "Discuss the impact of the printing press."⟩,
   ⟨"multiple_choice", "Which year did it appear?"⟩]

/-! Helper lemmas about the section builder of the document generator. -/

/-- A type occurring in no selected question has an empty group. -/
theorem filter_ty_isEmpty_true (qs : List GenQuestion) (t : String)
    (h : ∀ q ∈ qs, q.ty ≠ t) :
    (qs.filter (fun q => q.ty = t)).isEmpty = true := by
  simp only [List.isEmpty_iff, List.filter_eq_nil_iff, decide_eq_true_eq]
  exact h

/-- A type occurring in some selected question has a nonempty group. -/
theorem filter_ty_isEmpty_false (qs : List GenQuestion) (t : String)
    (h : ∃ q ∈ qs, q.ty = t) :
    (qs.filter (fun q => q.ty = t)).isEmpty = false := by
  obtain ⟨q, hq, ht⟩ := h
  have hmem : q ∈ qs.filter (fun q => q.ty = t) :=
    List.mem_filter.mpr ⟨hq, by simp [ht]⟩
  rw [← Bool.not_eq_true, List.isEmpty_iff]
  exact List.ne_nil_of_mem hmem

/-- Every section the builder emits holds at least one question. -/
theorem buildSections_questions_ne_nil (config : List (String × String × String)) :
    ∀ (qs : List GenQuestion) (pn : Nat) (s : GenSection),
      s ∈ buildSections config qs pn → s.questions ≠ [] := by
  induction config with
  | nil => intro qs pn s h; simp [buildSections] at h
  | cons c rest ih =>
    intro qs pn s h
    obtain ⟨qt, lb, ins⟩ := c
    simp only [buildSections] at h
    by_cases hg : (qs.filter (fun q => q.ty = qt)).isEmpty
    · rw [if_pos hg] at h
      exact ih qs pn s h
    · rw [if_neg hg] at h
      rcases List.mem_cons.mp h with h1 | h2
      · subst h1
        intro hnil
        apply hg
        rw [List.isEmpty_iff]
        exact hnil
      · exact ih qs (pn + 1) s h2

/-- The emitted section keys are the configured types that have a question,
in configuration order. -/
theorem buildSections_map_key (config : List (String × String × String)) :
    ∀ (qs : List GenQuestion) (pn : Nat),
      (buildSections config qs pn).map GenSection.sKey
        = (config.filter
            (fun c => !(qs.filter (fun q => q.ty = c.1)).isEmpty)).map (fun c => c.1) := by
  induction config with
  | nil => intro qs pn; rfl
  | cons c rest ih =>
    intro qs pn
    obtain ⟨qt, lb, ins⟩ := c
    by_cases hg : (qs.filter (fun q => q.ty = qt)).isEmpty
    · simp [buildSections, List.filter_cons, hg, ih]
    · rw [Bool.not_eq_true] at hg
      simp [buildSections, List.filter_cons, hg, ih]

/-- The emitted section titles carry consecutive `PART` numbers starting at
`pn`, over the configured types that have a question. -/
theorem buildSections_map_title (config : List (String × String × String)) :
    ∀ (qs : List GenQuestion) (pn : Nat),
      (buildSections config qs pn).map GenSection.title
        = partLabels pn ((config.filter
            (fun c => !(qs.filter (fun q => q.ty = c.1)).isEmpty)).map (fun c => c.2.1)) := by
  induction config with
  | nil => intro qs pn; rfl
  | cons c rest ih =>
    intro qs pn
    obtain ⟨qt, lb, ins⟩ := c
    by_cases hg : (qs.filter (fun q => q.ty = qt)).isEmpty
    · simp [buildSections, List.filter_cons, hg, ih, partLabels]
    · rw [Bool.not_eq_true] at hg
      simp [buildSections, List.filter_cons, hg, ih, partLabels]

/-- The numbers `numberFrom` hands out are consecutive. -/
theorem numberFrom_map_fst (l : List GenQuestion) :
    ∀ n, (numberFrom n l).map Prod.fst = List.range' n l.length := by
  induction l with
  | nil => intro n; rfl
  | cons q rest ih => intro n; simp [numberFrom, List.range'_succ, ih]

/-- Question numbers are consecutive across the whole rendered body. -/
theorem add_questions_numbers (secs : List GenSection) :
    ∀ n, ((add_questions_by_type secs n).map (fun r => r.body.map Prod.fst)).flatten
      = List.range' n ((secs.map (fun s => s.questions.length)).sum) := by
  induction secs with
  | nil => intro n; rfl
  | cons s rest ih =>
    intro n
    by_cases hs : s.questions.isEmpty
    · have h0 : s.questions.length = 0 := by
        rw [List.isEmpty_iff] at hs
        simp [hs]
      simp [add_questions_by_type, hs, ih, h0]
    · rw [Bool.not_eq_true] at hs
      simp [add_questions_by_type, hs, numberFrom_map_fst, ih, List.range'_append_1]
      omega

/-- With questions of types essay and multiple-choice only, and both present,
the generator emits exactly the two corresponding sections: multiple-choice as
PART 1, essay as PART 2. -/
theorem generate_sections_essay_mc (qs : List GenQuestion)
    (h1 : ∀ q ∈ qs, q.ty = "essay" ∨ q.ty = "multiple_choice")
    (h2 : ∃ q ∈ qs, q.ty = "multiple_choice")
    (h3 : ∃ q ∈ qs, q.ty = "essay") :
    (generate_sections qs).map (fun s => (s.sKey, s.title))
      = [("multiple_choice", "PART 1. Multiple Choice"), ("essay", "PART 2. Essay")] := by
  have hid : (qs.filter (fun q => q.ty = "identification")).isEmpty = true :=
    filter_ty_isEmpty_true qs ("identification")
      (by intro q hq; rcases h1 q hq with h | h <;> simp [h])
  have htf : (qs.filter (fun q => q.ty = "true_false")).isEmpty = true :=
    filter_ty_isEmpty_true qs ("true_false")
      (by intro q hq; rcases h1 q hq with h | h <;> simp [h])
  have hfb : (qs.filter (fun q => q.ty = "fill_blank")).isEmpty = true :=
    filter_ty_isEmpty_true qs ("fill_blank")
      (by intro q hq; rcases h1 q hq with h | h <;> simp [h])
  have hma : (qs.filter (fun q => q.ty = "matching")).isEmpty = true :=
    filter_ty_isEmpty_true qs ("matching")
      (by intro q hq; rcases h1 q hq with h | h <;> simp [h])
  have hmc : (qs.filter (fun q => q.ty = "multiple_choice")).isEmpty = false :=
    filter_ty_isEmpty_false qs ("multiple_choice") h2
  have hes : (qs.filter (fun q => q.ty = "essay")).isEmpty = false :=
    filter_ty_isEmpty_false qs ("essay") h3
  simp [generate_sections, section_config, buildSections, hid, htf, hfb, hma, hmc, hes]
  constructor <;> rfl

/-! The claims. -/

/-- C4: for every input set of approved questions, the document generator
emits only sections with at least one question, in the fixed canonical type
order of `section_config` (Identification, Multiple Choice, True/False, Essay,
Fill in the Blanks, Matching), with `PART N` labels numbered consecutively
from 1 over the emitted sections regardless of input order; for questions of
types essay and multiple-choice only, Multiple Choice is PART 1 and Essay is
PART 2; question numbering is sequential across all sections, not reset per
section. -/
theorem generated_sections_canonical_order (qs qs' : List GenQuestion)
    (h1 : ∀ q ∈ qs', q.ty = "essay" ∨ q.ty = "multiple_choice")
    (h2 : ∃ q ∈ qs', q.ty = "multiple_choice")
    (h3 : ∃ q ∈ qs', q.ty = "essay") :
    (∀ s ∈ generate_sections qs, s.questions ≠ []) ∧
    ((generate_sections qs).map GenSection.sKey
      = (section_config.filter
          (fun c => !(qs.filter (fun q => q.ty = c.1)).isEmpty)).map (fun c => c.1)) ∧
    ((generate_sections qs).map GenSection.title
      = partLabels 1 ((section_config.filter
          (fun c => !(qs.filter (fun q => q.ty = c.1)).isEmpty)).map (fun c => c.2.1))) ∧
    (((render_document qs).map (fun r => r.body.map Prod.fst)).flatten
      = List.range' 1 (((generate_sections qs).map (fun s => s.questions.length)).sum)) ∧
    ((generate_sections qs').map (fun s => (s.sKey, s.title))
      = [("multiple_choice", "PART 1. Multiple Choice"), ("essay", "PART 2. Essay")]) :=
  ⟨fun s hs => buildSections_questions_ne_nil section_config qs 1 s hs,
   buildSections_map_key section_config qs 1,
   buildSections_map_title section_config qs 1,
   add_questions_numbers (generate_sections qs) 1,
   generate_sections_essay_mc qs' h1 h2 h3⟩

/-- Witness for C4 at a concrete two-question input (essay listed first). -/
theorem generated_sections_canonical_order_witness :
    (∀ s ∈ generate_sections essayMcQuestions, s.questions ≠ []) ∧
    ((generate_sections essayMcQuestions).map GenSection.sKey
      = (section_config.filter
          (fun c => !(essayMcQuestions.filter (fun q => q.ty = c.1)).isEmpty)).map (fun c => c.1)) ∧
    ((generate_sections essayMcQuestions).map GenSection.title
      = partLabels 1 ((section_config.filter
          (fun c => !(essayMcQuestions.filter (fun q => q.ty = c.1)).isEmpty)).map (fun c => c.2.1))) ∧
    (((render_document essayMcQuestions).map (fun r => r.body.map Prod.fst)).flatten
      = List.range' 1 (((generate_sections essayMcQuestions).map (fun s => s.questions.length)).sum)) ∧
    ((generate_sections essayMcQuestions).map (fun s => (s.sKey, s.title))
      = [("multiple_choice", "PART 1. Multiple Choice"), ("essay", "PART 2. Essay")]) :=
  generated_sections_canonical_order essayMcQuestions essayMcQuestions
    (by decide) (by decide) (by decide)

/-- C6 counterexample: the multiple-choice candidate `mc3Candidate`, which
carries only 3 of the 4 options, is persisted by the gemini save loop — it
reaches persistence with `option_d` stored as null, because no option-count
validation runs on the live path. This refutes the claim that such a
candidate never reaches persistence. -/
theorem incomplete_mc_candidate_persisted :
    gemini_persist questionTypeNames [mc3Candidate]
      = [⟨"multiple_choice", "Which option is correct?", some ("Option 1"), some ("Option 2"),
          some ("Option 3"), none, "a", "", 1, "medium", false⟩] := rfl

/-- C6 (amended): `_validate_question` drops every multiple-choice candidate
missing any of the four options, but the live gemini persistence path runs no
such validation: any multiple-choice candidate with a known type and a
question text is persisted there, whatever its options hold. -/
theorem validate_drops_incomplete_mc (q : Question) (g : GQData)
    (hq : q.ty = some ("multiple_choice"))
    (hopt : truthyStr q.option_a = false ∨ truthyStr q.option_b = false ∨
      truthyStr q.option_c = false ∨ truthyStr q.option_d = false)
    (hg : g.ty = some ("multiple_choice")) (hgq : g.question.isSome = true) :
    (validate_question q).1 = false ∧
    (gemini_create_question questionTypeNames g).isSome = true := by
  constructor
  · unfold validate_question
    split
    · rfl
    · rw [if_pos ⟨hq, hopt⟩]
  · obtain ⟨t, ht⟩ : ∃ t, g.question = some t := Option.isSome_iff_exists.mp hgq
    simp [gemini_create_question, hg, ht, questionTypeNames]

/-- Witness for C6 at the concrete 3-option candidates. -/
theorem validate_drops_incomplete_mc_witness :
    (validate_question mc3FlatCandidate).1 = false ∧
    (gemini_create_question questionTypeNames mc3Candidate).isSome = true :=
  validate_drops_incomplete_mc mc3FlatCandidate mc3Candidate
    (by decide) (by decide) (by decide) (by decide)

/-- C7: for every format tag outside the accepted set (pdf, docx, doc, xlsx,
xls, txt), `_read_file` raises `Unsupported file type` before any reader runs,
and `extract_text_from_file` likewise raises `Unsupported file format` for
every path whose extension is outside the set; every accepted tag dispatches
to the corresponding format-specific reader. -/
theorem unsupported_format_rejected (t : String) (p : List Char)
    (ht : t ∉ (["pdf", "docx", "doc", "xlsx", "xls", "txt"] : List String))
    (hp : extension_of p ∉ [("pdf").toList, ("docx").toList, ("doc").toList,
      ("xlsx").toList, ("xls").toList, ("txt").toList]) :
    read_file t = Except.error ("Unsupported file type: " ++ t) ∧
    extract_text_from_file p
      = Except.error ("Unsupported file format: " ++ String.mk (extension_of p)) ∧
    read_file "txt" = Except.ok FileReader.txt ∧
    read_file "pdf" = Except.ok FileReader.pdf ∧
    read_file "docx" = Except.ok FileReader.docx ∧
    read_file "doc" = Except.ok FileReader.docx ∧
    read_file "xlsx" = Except.ok FileReader.xlsx ∧
    read_file "xls" = Except.ok FileReader.xlsx ∧
    extract_text_from_file (("notes.pdf").toList) = Except.ok FileReader.pdf ∧
    extract_text_from_file (("notes.docx").toList) = Except.ok FileReader.docx ∧
    extract_text_from_file (("notes.xlsx").toList) = Except.ok FileReader.xlsx ∧
    extract_text_from_file (("notes.txt").toList) = Except.ok FileReader.txt := by
  have h1 : t ≠ "pdf" := fun h => ht (by simp [h])
  have h2 : t ≠ "docx" := fun h => ht (by simp [h])
  have h3 : t ≠ "doc" := fun h => ht (by simp [h])
  have h4 : t ≠ "xlsx" := fun h => ht (by simp [h])
  have h5 : t ≠ "xls" := fun h => ht (by simp [h])
  have h6 : t ≠ "txt" := fun h => ht (by simp [h])
  have g1 : extension_of p ≠ ("pdf").toList := fun h => hp (by simp [h])
  have g2 : extension_of p ≠ ("docx").toList := fun h => hp (by simp [h])
  have g3 : extension_of p ≠ ("doc").toList := fun h => hp (by simp [h])
  have g4 : extension_of p ≠ ("xlsx").toList := fun h => hp (by simp [h])
  have g5 : extension_of p ≠ ("xls").toList := fun h => hp (by simp [h])
  have g6 : extension_of p ≠ ("txt").toList := fun h => hp (by simp [h])
  refine ⟨?_, ?_, rfl, rfl, rfl, rfl, rfl, rfl, rfl, rfl, rfl, rfl⟩
  · simp [read_file, h1, h2, h3, h4, h5, h6]
  · simp at g1 g2 g3 g4 g5 g6
    simp [extract_text_from_file, g1, g2, g3, g4, g5, g6]

/-- Witness for C7 at the concrete unsupported tag `rtf`. -/
theorem unsupported_format_rejected_witness :
    read_file "rtf" = Except.error ("Unsupported file type: " ++ "rtf") ∧
    extract_text_from_file (("file.rtf").toList)
      = Except.error ("Unsupported file format: "
          ++ String.mk (extension_of (("file.rtf").toList))) ∧
    read_file "txt" = Except.ok FileReader.txt ∧
    read_file "pdf" = Except.ok FileReader.pdf ∧
    read_file "docx" = Except.ok FileReader.docx ∧
    read_file "doc" = Except.ok FileReader.docx ∧
    read_file "xlsx" = Except.ok FileReader.xlsx ∧
    read_file "xls" = Except.ok FileReader.xlsx ∧
    extract_text_from_file (("notes.pdf").toList) = Except.ok FileReader.pdf ∧
    extract_text_from_file (("notes.docx").toList) = Except.ok FileReader.docx ∧
    extract_text_from_file (("notes.xlsx").toList) = Except.ok FileReader.xlsx ∧
    extract_text_from_file (("notes.txt").toList) = Except.ok FileReader.txt :=
  unsupported_format_rejected ("rtf") (("file.rtf").toList) (by decide) (by decide)

/-- C8 counterexample: a text of 8001 characters is within the claimed
30000-character budget, yet the gemini prompt builders do not embed it
unchanged — they slice it to its first 8000 characters. -/
theorem gemini_prompt_truncates_below_budget :
    (List.replicate 8001 'a').length ≤ 30000 ∧
    gemini_prompt_slice (List.replicate 8001 'a') ≠ List.replicate 8001 'a' := by
  constructor
  · rw [List.length_replicate]
    omega
  · intro h
    have hlen := congrArg List.length h
    simp only [gemini_prompt_slice, List.length_take, List.length_replicate] at hlen
    omega

/-- C8 (amended): the legacy `_extract_with_ai` truncates to a 30000-character
budget with the marker appended and passes shorter text unchanged, but the
live gemini prompt builders silently slice the text to its first 8000
characters with no marker; in both paths truncation is total (never an
error). -/
theorem truncation_behaviour (c : List Char) :
    (c.length ≤ 30000 → truncate_content c = c) ∧
    (c.length > 30000 →
      truncate_content c = c.take 30000 ++ ("\n... (content truncated)").toList) ∧
    gemini_prompt_slice c = c.take 8000 ∧
    (c.length ≤ 8000 → gemini_prompt_slice c = c) := by
  refine ⟨?_, ?_, rfl, ?_⟩
  · intro h
    unfold truncate_content
    rw [if_neg (by omega)]
  · intro h
    unfold truncate_content
    rw [if_pos h]
  · intro h
    unfold gemini_prompt_slice
    exact List.take_of_length_le h

/-- Witness for C8 at a concrete short text. -/
theorem truncation_behaviour_witness :
    ((("hi").toList.length ≤ 30000 → truncate_content (("hi").toList) = ("hi").toList) ∧
    ((("hi").toList.length > 30000 →
      truncate_content (("hi").toList)
        = ("hi").toList.take 30000 ++ ("\n... (content truncated)").toList)) ∧
    gemini_prompt_slice (("hi").toList) = ("hi").toList.take 8000 ∧
    ((("hi").toList.length ≤ 8000 → gemini_prompt_slice (("hi").toList) = ("hi").toList))) :=
  truncation_behaviour (("hi").toList)

/-- C10: candidate validation with default-filling is idempotent: a candidate
whose difficulty is a valid enum value, whose points are truthy and whose
explanation and answer keys are present is returned unchanged by
`_validate_question`, and re-running validation returns the same verdict and
the same candidate. -/
theorem validate_question_idempotent (q : Question)
    (hd : q.difficulty = some ("easy") ∨ q.difficulty = some ("medium") ∨
      q.difficulty = some ("hard"))
    (hp : truthyInt q.points = true)
    (he : q.explanation ≠ none) (ha : q.answer ≠ none) :
    (validate_question q).2 = q ∧
    validate_question ((validate_question q).2) = validate_question q := by
  have h2 : (validate_question q).2 = q := by
    unfold validate_question
    split
    · rfl
    · split
      · rfl
      · simp only [if_pos hd, if_pos hp, if_neg he, if_neg ha]
  exact ⟨h2, by rw [h2]⟩

/-- Witness for C10 at a concrete already-validated candidate. -/
theorem validate_question_idempotent_witness :
    (validate_question validatedCandidate).2 = validatedCandidate ∧
    validate_question ((validate_question validatedCandidate).2)
      = validate_question validatedCandidate :=
  validate_question_idempotent validatedCandidate
    (by decide) (by decide) (by decide) (by decide)

/-- C2: for every file content, set of type names, mode and AI response text,
`process_questionnaire` of `AIQuestionExtractor` fails even when the file read
succeeds (non-blank content) and the AI call succeeds: the class defines no
`_parse_ai_response` method, so the call at extractors.py line 173 raises
`AttributeError`, re-raised as `AI extraction failed`. -/
theorem process_questionnaire_always_fails (fileContent : List Char)
    (type_names : List String) (mode : String) (responseText : List Char)
    (hc : (py_strip fileContent).isEmpty = false) :
    process_questionnaire fileContent type_names mode responseText
      = Except.error attributeErrorMsg := by
  unfold process_questionnaire extract_with_ai parse_ai_response_table
  simp [hc, List.lookup]

/-- Witness for C2 at a concrete non-blank file content. -/
theorem process_questionnaire_always_fails_witness :
    process_questionnaire (("Question: what is 1+1?").toList) questionTypeNames
      ("extract") [] = Except.error attributeErrorMsg :=
  process_questionnaire_always_fails (("Question: what is 1+1?").toList)
    questionTypeNames ("extract") [] (by decide)

/-- C1 (the code at the claimed failing input): on an AI response holding one
well-formed question object and one truncated object, extraction does not
return the single valid candidate — it fails wholesale: in
`AIQuestionExtractor` the salvage pass is unreachable (`_parse_ai_response` is
undefined) and every extraction raises `AI extraction failed`, and the live
gemini parser has no salvage pass at all. -/
theorem extractor_fails_on_salvageable_response :
    process_questionnaire (("1. What is photosynthesis? It is...").toList)
      questionTypeNames ("extract") c1FailingResponse
      = Except.error attributeErrorMsg := rfl

/-- C3 counterexample: with a successfully read file and a successfully parsed
response whose single candidate matches no question type, zero candidates are
persisted and `process_questionnaire` of the gemini service itself raises —
the persister does not return the empty list for the caller to decide on,
refuting the claim that the empty-result decision is made by the caller, not
inside the persister. -/
theorem empty_extraction_decided_inside_persister :
    gemini_process_questionnaire (("Lecture notes without questions").toList)
      (Except.ok (some [fooCandidate])) questionTypeNames
      = Except.error ("No questions were found or created from the file") := rfl

/-- C3 (amended): in the primary upload flow, if zero valid candidates are
persisted the uploaded document row and its file are deleted and the failure
is reported, leaving no orphaned rows — but the hard-failure decision on an
empty result is made inside the gemini service (`process_questionnaire`
raises, and an empty `questions` list already raises inside
`extract_questions_with_ai`), not by the caller: the view's own empty-list
check is an unreachable second guard. -/
theorem zero_questions_rolls_back_upload (content : List Char) (qs : List GQData)
    (types : List String) (hc : (py_strip content).isEmpty = false)
    (hz : gemini_persist types qs = []) :
    (∃ e, gemini_process_questionnaire content (Except.ok (some qs)) types
      = Except.error e) ∧
    upload_questionnaire_flow
        (gemini_process_questionnaire content (Except.ok (some qs)) types)
      = ⟨false, false, [], "processing", true⟩ := by
  have herr : ∃ e, gemini_process_questionnaire content (Except.ok (some qs)) types
      = Except.error e := by
    unfold gemini_process_questionnaire extract_questions_with_ai
    rw [if_neg (by simp [hc])]
    by_cases hq : qs.isEmpty
    · exact ⟨"AI extraction failed: AI response did not contain any questions",
        by simp [hq]⟩
    · rw [Bool.not_eq_true] at hq
      exact ⟨"No questions were found or created from the file", by simp [hq, hz]⟩
  obtain ⟨e, he⟩ := herr
  exact ⟨⟨e, he⟩, by rw [he]; rfl⟩

/-- Witness for C3 at a concrete input with no persistable candidate. -/
theorem zero_questions_rolls_back_upload_witness :
    (∃ e, gemini_process_questionnaire (("x").toList) (Except.ok (some [fooCandidate]))
      questionTypeNames = Except.error e) ∧
    upload_questionnaire_flow
        (gemini_process_questionnaire (("x").toList) (Except.ok (some [fooCandidate]))
          questionTypeNames)
      = ⟨false, false, [], "processing", true⟩ :=
  zero_questions_rolls_back_upload (("x").toList) [fooCandidate] questionTypeNames
    (by decide) rfl

/-- C5 counterexample: the `retry_extraction` view starts extraction on a
document whose status is already `processing` (it checks the status nowhere),
and a retry of a `completed` document performs the transition
completed→processing — refuting the claim that the only transitions are
pending→processing→(completed or failed) plus failed→processing, and that
extraction is never started on a `processing` document. -/
theorem retry_runs_on_processing_document :
    (retry_extraction ("processing") [storedSample] [1]
      (Except.ok [storedSample])).ranExtraction = true ∧
    (retry_extraction ("processing") [storedSample] [1]
      (Except.ok [storedSample])).priorDeleted = true ∧
    (retry_extraction ("completed") [] [1] (Except.ok [storedSample])).statusTrace
      = ["processing", "completed"] :=
  ⟨rfl, rfl, rfl⟩

/-- C5 (amended): a POST to `retry_extraction` with at least one selected type
deletes all prior stored questions for the document and resets it to
`processing` whatever its current status — including `completed` and
`processing`, since the view performs no status check — then runs extraction
and assigns `completed` on success and `failed` on failure. -/
theorem retry_resets_status_unconditionally (currentStatus : String)
    (prior : List StoredQuestion) (ids : List Nat)
    (res : Except String (List StoredQuestion)) (h : ids ≠ []) :
    (retry_extraction currentStatus prior ids res).priorDeleted = true ∧
    (retry_extraction currentStatus prior ids res).ranExtraction = true ∧
    (retry_extraction currentStatus prior ids res).statusTrace.head?
      = some ("processing") ∧
    (∀ created, res = Except.ok created →
      (retry_extraction currentStatus prior ids res).finalStatus = "completed" ∧
      (retry_extraction currentStatus prior ids res).storedAfter = created) ∧
    (∀ e, res = Except.error e →
      (retry_extraction currentStatus prior ids res).finalStatus = "failed") := by
  have hne : ids.isEmpty = false := by
    rw [← Bool.not_eq_true, List.isEmpty_iff]
    exact h
  cases res with
  | ok created => simp [retry_extraction, hne]
  | error e => simp [retry_extraction, hne]

/-- Witness for C5: a retry of a completed document with one selected type. -/
theorem retry_resets_status_unconditionally_witness :
    (retry_extraction ("completed") [storedSample] [1]
      (Except.ok [])).priorDeleted = true ∧
    (retry_extraction ("completed") [storedSample] [1]
      (Except.ok [])).ranExtraction = true ∧
    (retry_extraction ("completed") [storedSample] [1]
      (Except.ok [])).statusTrace.head? = some ("processing") ∧
    (∀ created, (Except.ok [] : Except String (List StoredQuestion)) = Except.ok created →
      (retry_extraction ("completed") [storedSample] [1]
        (Except.ok [])).finalStatus = "completed" ∧
      (retry_extraction ("completed") [storedSample] [1]
        (Except.ok [])).storedAfter = created) ∧
    (∀ e, (Except.ok [] : Except String (List StoredQuestion)) = Except.error e →
      (retry_extraction ("completed") [storedSample] [1]
        (Except.ok [])).finalStatus = "failed") :=
  retry_resets_status_unconditionally ("completed") [storedSample] [1]
    (Except.ok []) (by decide)

/-- C9 (the code at the claimed failing input): when the `docx2pdf` dependency
is unavailable (or the conversion fails), the generator still returns the
DOCX without raising, but the returned `pdf_path` does not indicate that no
PDF was produced: `generate_bisu_questionnaire` discards `save_pdf`'s
docx fallback return value and hands back the original `.pdf` path, a file
that was never written — contradicting its own docstring, which says
`pdf_path may be None if conversion fails`. -/
theorem pdf_skip_not_signalled :
    (generate_bisu_tail ConvOutcome.importErr (("Math101_Exam.docx").toList)
        (("Math101_Exam.pdf").toList)).1
      = ((("Math101_Exam.docx").toList), some (("Math101_Exam.pdf").toList)) ∧
    (("Math101_Exam.pdf").toList) ∉
      (generate_bisu_tail ConvOutcome.importErr (("Math101_Exam.docx").toList)
        (("Math101_Exam.pdf").toList)).2.written ∧
    (generate_bisu_tail ConvOutcome.convErr (("Math101_Exam.docx").toList)
        (("Math101_Exam.pdf").toList)).1.2 = some (("Math101_Exam.pdf").toList) := by
  refine ⟨rfl, ?_, rfl⟩
  decide
